import Mathlib

/-!
Verification of the go-meta content-addressed object layer.

This file is a shallow embedding of the `meta` package of the go-meta
repository (Block construction and validation, DAG-CBOR Object decoding,
the Store over a key/value datastore, and the Graph path resolver), together
with theorems settling the specification's claims about it.

Modelling conventions:
* bytes are `List Nat`;
* the multihash digest function and the DAG-CBOR decoder are parameters
  (`HashFn`, `DecodeFn`): the theorems hold for every choice of them, and
  concrete instances are supplied when a theorem is evaluated at a point;
* fallible Go functions return `Except Err`;
* Go's unbounded recursion in `Graph.Get` is made total with a fuel
  argument, and theorems quantify over the fuel.
-/

set_option autoImplicit false

namespace GoMeta

/-- Model of the multihash digest function: maps a multihash function id and
input bytes to digest bytes. The development is parameterized over it, so
every theorem holds for the real digest function as well. -/
abbrev HashFn := Nat → List Nat → List Nat

/-- Header of a CID (Go: the cid.Prefix struct): address-format version,
content codec id, multihash function id and multihash digest length. -/
structure CidHeader where
  version : Nat
  codec : Nat
  mhType : Nat
  mhLength : Nat
deriving DecidableEq, Repr

/-- A content identifier (Go: cid.Cid): header plus multihash digest bytes.
Go's cid.Equals is byte equality of the encoded CID, modelled as equality. -/
structure Cid where
  hdr : CidHeader
  digest : List Nat
deriving DecidableEq, Repr

/-- Go: the Sum method of cid.Prefix — derives the CID of a byte sequence
under this header by hashing the bytes with the header's multihash function. -/
def CidHeader.Sum (H : HashFn) (p : CidHeader) (data : List Nat) : Cid :=
  { hdr := p, digest := H p.mhType data }

/-- A decoded DAG-CBOR tree as held by a cbornode Node: strings, integers,
CID links, arrays and string-keyed maps. -/
inductive Val where
  | str : String → Val
  | num : Int → Val
  | link : Cid → Val
  | arr : List Val → Val
  | map : List (String × Val) → Val

/-- A value as returned by the cbornode Resolve method: either a raw decoded
value (returned once the path is exhausted) or a format.Link wrapper
(returned when resolution stops at a CID with path segments remaining). -/
inductive RVal where
  | v : Val → RVal
  | fmtLink : Cid → RVal

/-- The Go dynamic type name of a resolved value, as printed by the %T verb
in the ExpectedLink error message of Graph.Get. -/
def RVal.goTypeName : RVal → String
  | .v (.str _) => "string"
  | .v (.num _) => "int64"
  | .v (.link _) => "*cid.Cid"
  | .v (.arr _) => "[]interface \x7b\x7d"
  | .v (.map _) => "map[interface \x7b\x7d]interface \x7b\x7d"
  | .fmtLink _ => "*format.Link"

/-- The error kinds the embedded code can produce. -/
inductive Err where
  | invalidCidVersion : Nat → Err
  | cidMismatch : Cid → Cid → Err
  | invalidCodec : Nat → Err
  | invalidType : RVal → Err
  | pathNotFound : List String → Err
  | expectedLink : String → Err
  | decodeError : String → Err
  | noSuchLink : Err
  | noLinks : Err
  | keyNotFound : String → Err
  | fuelExhausted : Err

/-- Go compares a resolution error to the cbornode no-such-link error by
identity of that singleton error value; this is the corresponding test. -/
def Err.isNoSuchLink : Err → Bool
  | .noSuchLink => true
  | _ => false

/-- Model of the DAG-CBOR decoder (Go: the cbornode DecodeBlock function,
restricted to the bytes of a block): a function from bytes to a decoded tree
or an error. The development is parameterized over it. -/
abbrev DecodeFn := List Nat → Except Err Val

/-- Go: the Resolve method of a cbornode Node. Walks path segments through
the decoded tree: descends through maps by key (a missing key is the
cbornode no-such-link error); stops at a CID value, wrapping it as a
format.Link together with the remaining segments; resolving a step through a
non-container value is the cbornode no-links error; an exhausted path
returns the current value raw (a terminal CID comes back unwrapped). -/
def Node.Resolve : Val → List String → Except Err (RVal × List String)
  | cur, [] => .ok (.v cur, [])
  | .link c, path => .ok (.fmtLink c, path)
  | .map kvs, seg :: rest =>
    match kvs.lookup seg with
    | none => .error .noSuchLink
    | some next => Node.Resolve next rest
  | _, _ :: _ => .error .noLinks

/-- The number identifying a CID as CIDv1 (src/unnamed/part_002 line 171). -/
def cidV1 : Nat := 1

/-- The DAG-CBOR codec id (Go: cid.DagCBOR = 0x71). -/
def DagCBOR : Nat := 113

/-- Go: the meta Block struct — an embedded basic block (raw bytes plus CID)
together with the CID's header. -/
structure Block where
  basicCid : Cid
  basicData : List Nat
  hdr : CidHeader
deriving DecidableEq, Repr

/-- Go: the RawData method of a block. -/
def Block.RawData (b : Block) : List Nat := b.basicData

/-- Go: the Cid method of a block. -/
def Block.Cid (b : Block) : Cid := b.basicCid

/-- Go: the Codec method of a block (the codec of its CID header). -/
def Block.Codec (b : Block) : Nat := b.hdr.codec

/-- Go: NewBlock (src/unnamed/part_002 lines 181-205). Rejects a CID whose
version is not CIDv1, then re-derives the CID from the bytes under the
claimed CID's header and rejects a mismatch. The final call to
blocks.NewBlockWithCid only fails in debug builds and is modelled as always
succeeding. -/
def NewBlock (H : HashFn) (id : Cid) (data : List Nat) : Except Err Block :=
  let p := id.hdr
  if p.version ≠ cidV1 then
    .error (.invalidCidVersion p.version)
  else
    let expectedCid := CidHeader.Sum H p data
    if id ≠ expectedCid then
      .error (.cidMismatch expectedCid id)
    else
      .ok { basicCid := id, basicData := data, hdr := p }

/-- Go: the meta Object struct — declared type tag, validated block, decoded
DAG-CBOR tree. -/
structure Object where
  typ : String
  block : Block
  node : Val

/-- Go: the Cid method of an Object. -/
def Object.Cid (o : Object) : Cid := o.block.Cid

/-- Go: the RawData method of an Object. -/
def Object.RawData (o : Object) : List Nat := o.block.RawData

/-- Go: the Type method of an Object (the name Type is reserved in Lean). -/
def Object.Typ (o : Object) : String := o.typ

/-- Go: NewObjectFromBlock (src/unnamed/part_002 lines 37-59). Rejects a
block whose codec is not DAG-CBOR, decodes its bytes, then inspects the
top-level @type field: a present non-string value is the InvalidType error,
a present string becomes the object's type, and a failed resolution of
@type leaves the type empty. -/
def NewObjectFromBlock (dec : DecodeFn) (block : Block) : Except Err Object :=
  if block.Codec ≠ DagCBOR then
    .error (.invalidCodec block.Codec)
  else
    match dec block.RawData with
    | .error e => .error e
    | .ok node =>
      match Node.Resolve node ["@type"] with
      | .ok (typ, _) =>
        match typ with
        | .v (.str s) => .ok { typ := s, block := block, node := node }
        | _ => .error (.invalidType typ)
      | .error _ => .ok { typ := "", block := block, node := node }

/-- Go: NewObject — builds a validated Block, then an Object from it. -/
def NewObject (H : HashFn) (dec : DecodeFn) (id : Cid) (rawData : List Nat) :
    Except Err Object :=
  match NewBlock H id rawData with
  | .error e => .error e
  | .ok block => NewObjectFromBlock dec block

/-- Go: the meta Store struct over its backing datastore (the in-memory map
datastore the repository instantiates), modelled as an association list from
string keys to raw bytes; a put conses a fresh entry whose key shadows any
older entry with the same key. -/
structure Store where
  store : List (String × List Nat)
deriving DecidableEq, Repr

/-- Go: the String method of a CID (its multibase string form), modelled as
an injective readable encoding of the CID's components. -/
def Cid.string (c : Cid) : String :=
  String.intercalate "."
    ((c.hdr.version :: c.hdr.codec :: c.hdr.mhType :: c.hdr.mhLength ::
      c.digest).map toString)

/-- Go: the key method of Store — the datastore key for a CID is its string
form. -/
def Store.key (c : Cid) : String := Cid.string c

/-- Go: the Get method of Store (src/unnamed/part_002 lines 149-155) —
fetches the raw bytes stored under the CID's key (a missing key is the
datastore not-found error) and rebuilds the Object from them. -/
def Store.Get (H : HashFn) (dec : DecodeFn) (s : Store) (c : Cid) :
    Except Err Object :=
  match s.store.lookup (Store.key c) with
  | none => .error (.keyNotFound (Store.key c))
  | some data => NewObject H dec c data

/-- Go: the Put method of Store (src/unnamed/part_002 lines 158-160) —
writes the object's raw bytes under its CID's key. The map datastore's Put
cannot fail, so the updated store is returned directly. -/
def Store.Put (s : Store) (obj : Object) : Store :=
  { store := (Store.key obj.Cid, obj.RawData) :: s.store }

/-- Go: the meta Graph struct — a store and a root object. -/
structure Graph where
  store : Store
  root : Object

/-- Go: NewGraph. -/
def NewGraph (store : Store) (root : Object) : Graph := ⟨store, root⟩

/-- Go: the Root method of a Graph. -/
def Graph.Root (g : Graph) : Object := g.root

/-- The dynamic result of Graph.Get: either the root Object itself (the
empty-string sentinel case returns g.root) or a value produced by the
cbornode Resolve method. -/
inductive GraphVal where
  | obj : Object → GraphVal
  | val : RVal → GraphVal

/-- Go: the Get method of Graph (src/unnamed/part_002 lines 110-136).
Returns the root object for the single empty-string sentinel path;
otherwise resolves the path inside the root's decoded tree, translating the
cbornode no-such-link error to PathNotFound; a fully resolved value is
returned as is; with segments remaining the resolved value must be a
format.Link (else the ExpectedLink error), whose target is fetched from the
store and recursed into. The Go method recurses without a structural bound,
so a fuel argument makes it total here; theorems quantify over the fuel and
so hold for every sufficient amount. -/
def Graph.Get (H : HashFn) (dec : DecodeFn) :
    Nat → Graph → List String → Except Err GraphVal
  | 0, _, _ => .error .fuelExhausted
  | fuel + 1, g, path =>
    if path = [""] then
      .ok (.obj g.root)
    else
      match Node.Resolve g.root.node path with
      | .error e => .error (if Err.isNoSuchLink e then Err.pathNotFound path else e)
      | .ok (v, rest) =>
        if rest = [] then
          .ok (.val v)
        else
          match v with
          | .fmtLink c =>
            match Store.Get H dec g.store c with
            | .error e => .error e
            | .ok obj => Graph.Get H dec fuel (NewGraph g.store obj) rest
          | _ => .error (.expectedLink (RVal.goTypeName v))

/-- The continuation of Graph.Get from line 121 of src/unnamed/part_002:
what Get does with a pair (v, rest) returned by the cbornode Resolve method.
Get at fuel + 1 behaves exactly as this continuation at fuel applied to
Resolve's output. -/
def Graph.getAfterResolve (H : HashFn) (dec : DecodeFn) (fuel : Nat)
    (g : Graph) (v : RVal) (rest : List String) : Except Err GraphVal :=
  if rest = [] then
    .ok (.val v)
  else
    match v with
    | .fmtLink c =>
      match Store.Get H dec g.store c with
      | .error e => .error e
      | .ok obj => Graph.Get H dec fuel (NewGraph g.store obj) rest
    | _ => .error (.expectedLink (RVal.goTypeName v))

/-- Graph.Get instrumented to also report how many Objects were fetched from
the Store during resolution (one per link crossed); the control flow is
identical to Graph.Get. -/
def Graph.GetCount (H : HashFn) (dec : DecodeFn) :
    Nat → Graph → List String → Except Err (GraphVal × Nat)
  | 0, _, _ => .error .fuelExhausted
  | fuel + 1, g, path =>
    if path = [""] then
      .ok (.obj g.root, 0)
    else
      match Node.Resolve g.root.node path with
      | .error e => .error (if Err.isNoSuchLink e then Err.pathNotFound path else e)
      | .ok (v, rest) =>
        if rest = [] then
          .ok (.val v, 0)
        else
          match v with
          | .fmtLink c =>
            match Store.Get H dec g.store c with
            | .error e => .error e
            | .ok obj =>
              match Graph.GetCount H dec fuel (NewGraph g.store obj) rest with
              | .error e => .error e
              | .ok (res, n) => .ok (res, n + 1)
          | _ => .error (.expectedLink (RVal.goTypeName v))

/-- Modelled from the spec: the go-meta IsPathNotFound predicate, whose
declaration is in a repository source file not present here (only callers
appear, e.g. src/ern/graphql.go line 85). Spec: "PathNotFound (a
distinguished, non-fatal condition exposed via a predicate so callers can
treat an absent optional field as nothing here)". It holds exactly of the
PathNotFound error. -/
def IsPathNotFound : Err → Bool
  | .pathNotFound _ => true
  | _ => false

/-- A concrete multihash model used when theorems are evaluated at a point:
the digest is the multihash function id followed by the input bytes. -/
def testHash : HashFn := fun t data => t :: data

/-- A concrete CID header used when theorems are evaluated at a point. -/
def testHeader : CidHeader := { version := 1, codec := 113, mhType := 18, mhLength := 2 }

/-- The CID of the concrete child object (bytes [2]) under the test hash. -/
def childCid : Cid := CidHeader.Sum testHash testHeader [2]

/-- Decoded tree of the concrete child object: a scalar field B = "x". -/
def childTree : Val := Val.map [("B", Val.str "x")]

/-- Decoded tree of the concrete root object: field A links to the child. -/
def rootTree : Val := Val.map [("A", Val.link childCid)]

/-- Decoded tree of a typed object: a top-level @type string. -/
def partyTree : Val := Val.map [("@type", Val.str "party")]

/-- Decoded tree with a non-string top-level @type (a link). -/
def typeLinkTree : Val := Val.map [("@type", Val.link childCid)]

/-- A concrete DAG-CBOR decoder model used when theorems are evaluated at a
point: a finite assignment of trees to the byte strings the tests use. -/
def testDec : DecodeFn := fun data =>
  if data = [1] then .ok rootTree
  else if data = [2] then .ok childTree
  else if data = [4] then .ok typeLinkTree
  else if data = [7] then .ok partyTree
  else .error (.decodeError "unknown bytes")

/-- The concrete root object (bytes [1]). -/
def rootObj : Object :=
  ⟨"", ⟨CidHeader.Sum testHash testHeader [1], [1], testHeader⟩, rootTree⟩

/-- The concrete child object (bytes [2]), stored in the test store. -/
def childObj : Object := ⟨"", ⟨childCid, [2], testHeader⟩, childTree⟩

/-- The concrete stored typed object (bytes [7]). -/
def partyCid : Cid := CidHeader.Sum testHash testHeader [7]

/-- The concrete typed object (bytes [7]) with declared type "party". -/
def partyObj : Object := ⟨"party", ⟨partyCid, [7], testHeader⟩, partyTree⟩

/-- An object whose decoded tree is a bare scalar, not a map. -/
def strObj : Object :=
  ⟨"", ⟨CidHeader.Sum testHash testHeader [3], [3], testHeader⟩, Val.str "scalar"⟩

/-- The concrete test store, holding exactly the child object's bytes. -/
def testStore : Store := ⟨[(Store.key childCid, [2])]⟩

/-- C1: for bytes b and a claimed CID of the supported version whose value
differs from the CID derived from b under that CID's own header, NewBlock
fails with the CidMismatch error carrying the derived and the claimed CID —
so no Block is returned. -/
theorem newBlock_addressMismatch (H : HashFn) (id : Cid) (data : List Nat)
    (hv : id.hdr.version = cidV1)
    (hne : id ≠ CidHeader.Sum H id.hdr data) :
    NewBlock H id data = .error (.cidMismatch (CidHeader.Sum H id.hdr data) id) := by
  simp [NewBlock, hv, hne]

/-- Evaluation of C1 at a point: the claimed digest [9] differs from the
derived digest, so NewBlock rejects with CidMismatch. -/
theorem newBlock_addressMismatch_witness :
    NewBlock testHash ⟨testHeader, [9]⟩ [1, 2] =
      .error (.cidMismatch (CidHeader.Sum testHash testHeader [1, 2]) ⟨testHeader, [9]⟩) :=
  newBlock_addressMismatch testHash ⟨testHeader, [9]⟩ [1, 2] rfl (by decide)

/-- C7: any claimed CID whose version is not the single supported version
makes NewBlock fail with the InvalidCidVersion error, with no hypothesis on
whether the bytes hash to the claimed CID. -/
theorem newBlock_invalidVersion (H : HashFn) (id : Cid) (data : List Nat)
    (hv : id.hdr.version ≠ cidV1) :
    NewBlock H id data = .error (.invalidCidVersion id.hdr.version) := by
  simp [NewBlock, hv]

/-- Evaluation of C7 at a point: a version-0 CID is rejected even though its
digest is exactly the one derived from the bytes. -/
theorem newBlock_invalidVersion_witness :
    NewBlock testHash ⟨⟨0, 113, 18, 2⟩, [18, 1, 2]⟩ [1, 2] =
      .error (.invalidCidVersion 0) :=
  newBlock_invalidVersion testHash ⟨⟨0, 113, 18, 2⟩, [18, 1, 2]⟩ [1, 2] (by decide)

/-- C9: a block whose codec is not DAG-CBOR makes NewObjectFromBlock fail
with the InvalidCodec error; no hypothesis relates the bytes to the CID, so
this holds in particular for blocks that validated against their claimed
CID. -/
theorem newObjectFromBlock_invalidCodec (dec : DecodeFn) (blk : Block)
    (hc : blk.Codec ≠ DagCBOR) :
    NewObjectFromBlock dec blk = .error (.invalidCodec blk.Codec) := by
  simp [NewObjectFromBlock, hc]

/-- Evaluation of C9 at a point: a block built by NewBlock itself (so its
bytes validate against its CID) under the DAG-PB codec 0x70 is rejected. -/
theorem newObjectFromBlock_invalidCodec_witness :
    NewBlock testHash ⟨⟨1, 112, 18, 2⟩, [18, 5]⟩ [5] =
      .ok ⟨⟨⟨1, 112, 18, 2⟩, [18, 5]⟩, [5], ⟨1, 112, 18, 2⟩⟩ ∧
    NewObjectFromBlock testDec ⟨⟨⟨1, 112, 18, 2⟩, [18, 5]⟩, [5], ⟨1, 112, 18, 2⟩⟩ =
      .error (.invalidCodec 112) :=
  ⟨rfl, newObjectFromBlock_invalidCodec testDec
    ⟨⟨⟨1, 112, 18, 2⟩, [18, 5]⟩, [5], ⟨1, 112, 18, 2⟩⟩ (by decide)⟩

/-- C6: for a block whose bytes decode to a map, NewObjectFromBlock fails
with the InvalidType error when the top-level @type field holds a non-string
value; an @type string becomes the Object's declared type; and with no
@type field the Object is built with the empty (untyped) type. -/
theorem newObjectFromBlock_type_field (dec : DecodeFn) (blk : Block)
    (kvs : List (String × Val))
    (hc : blk.Codec = DagCBOR)
    (hd : dec blk.RawData = .ok (Val.map kvs)) :
    (∀ v, kvs.lookup "@type" = some v →
      ((∀ s, v ≠ Val.str s) →
        NewObjectFromBlock dec blk = .error (.invalidType (.v v))) ∧
      (∀ s, v = Val.str s →
        ∃ o, NewObjectFromBlock dec blk = .ok o ∧ o.Typ = s)) ∧
    (kvs.lookup "@type" = none →
      ∃ o, NewObjectFromBlock dec blk = .ok o ∧ o.Typ = "") := by
  constructor
  · intro v hv
    have hres : Node.Resolve (Val.map kvs) ["@type"] = .ok (.v v, []) := by
      simp [Node.Resolve, hv]
    constructor
    · intro hns
      cases v with
      | str s => exact absurd rfl (hns s)
      | num n => simp [NewObjectFromBlock, hc, hd, hres]
      | link c => simp [NewObjectFromBlock, hc, hd, hres]
      | arr xs => simp [NewObjectFromBlock, hc, hd, hres]
      | map m => simp [NewObjectFromBlock, hc, hd, hres]
    · rintro s rfl
      refine ⟨⟨s, blk, Val.map kvs⟩, ?_, rfl⟩
      simp [NewObjectFromBlock, hc, hd, hres]
  · intro hnone
    have hres : Node.Resolve (Val.map kvs) ["@type"] = .error .noSuchLink := by
      simp [Node.Resolve, hnone]
    refine ⟨⟨"", blk, Val.map kvs⟩, ?_, rfl⟩
    simp [NewObjectFromBlock, hc, hd, hres]

/-- Evaluation of C6 at a point, one conjunct per case: an @type holding a
link is rejected as InvalidType; an @type string "party" becomes the type;
a tree without @type yields the untyped Object. -/
theorem newObjectFromBlock_type_field_witness :
    NewObjectFromBlock testDec ⟨CidHeader.Sum testHash testHeader [4], [4], testHeader⟩ =
      .error (.invalidType (.v (Val.link childCid))) ∧
    (∃ o, NewObjectFromBlock testDec partyObj.block = .ok o ∧ o.Typ = "party") ∧
    (∃ o, NewObjectFromBlock testDec childObj.block = .ok o ∧ o.Typ = "") :=
  ⟨((newObjectFromBlock_type_field testDec
        ⟨CidHeader.Sum testHash testHeader [4], [4], testHeader⟩
        [("@type", Val.link childCid)] rfl rfl).1
      (Val.link childCid) rfl).1 (fun _ h => nomatch h),
   ((newObjectFromBlock_type_field testDec partyObj.block
        [("@type", Val.str "party")] rfl rfl).1
      (Val.str "party") rfl).2 "party" rfl,
   (newObjectFromBlock_type_field testDec childObj.block
        [("B", Val.str "x")] rfl rfl).2 rfl⟩

/-- A block produced by NewBlock carries exactly the claimed CID and the
given bytes. -/
theorem newBlock_ok_fields {H : HashFn} {id : Cid} {data : List Nat}
    {blk : Block} (h : NewBlock H id data = .ok blk) :
    blk.basicCid = id ∧ blk.basicData = data := by
  rw [NewBlock] at h
  dsimp only [] at h
  split_ifs at h
  obtain rfl : ({ basicCid := id, basicData := data, hdr := id.hdr } : Block) = blk :=
    Except.ok.inj h
  exact ⟨rfl, rfl⟩

/-- An object produced by NewObjectFromBlock wraps exactly the given block. -/
theorem newObjectFromBlock_ok_block {dec : DecodeFn} {blk : Block}
    {o : Object} (h : NewObjectFromBlock dec blk = .ok o) : o.block = blk := by
  unfold NewObjectFromBlock at h
  split at h
  · exact absurd h (by simp)
  · split at h
    · exact absurd h (by simp)
    · split at h
      · split at h
        · injection h with h
          subst h
          rfl
        · exact absurd h (by simp)
      · injection h with h
        subst h
        rfl

/-- C2: an Object built by NewObject, when put into a store, is returned by
a get at its own CID with identical raw bytes and identical declared type
(indeed, as the identical Object). -/
theorem store_put_get_roundtrip (H : HashFn) (dec : DecodeFn) (s : Store)
    (id : Cid) (b : List Nat) (o : Object)
    (h : NewObject H dec id b = .ok o) :
    ∃ o', Store.Get H dec (Store.Put s o) o.Cid = .ok o' ∧
      o'.RawData = o.RawData ∧ o'.Typ = o.Typ := by
  refine ⟨o, ?_, rfl, rfl⟩
  have h' := h
  unfold NewObject at h'
  cases hb : NewBlock H id b with
  | error e => rw [hb] at h'; exact absurd h' (by simp)
  | ok blk =>
    rw [hb] at h'
    obtain ⟨hc, hd⟩ := newBlock_ok_fields hb
    have hblock := newObjectFromBlock_ok_block h'
    have hcid : o.Cid = id := by
      rw [Object.Cid, hblock, Block.Cid, hc]
    have hraw : o.RawData = b := by
      rw [Object.RawData, hblock, Block.RawData, hd]
    have hlook : (Store.Put s o).store.lookup (Store.key o.Cid) = some o.RawData := by
      simp [Store.Put, List.lookup]
    simp only [Store.Get, hlook]
    rw [hcid, hraw]
    exact h

/-- Evaluation of C2 at a point: the typed object round-trips through an
empty store. -/
theorem store_put_get_roundtrip_witness :
    NewObject testHash testDec partyCid [7] = .ok partyObj ∧
    ∃ o', Store.Get testHash testDec (Store.Put ⟨[]⟩ partyObj) partyObj.Cid = .ok o' ∧
      o'.RawData = partyObj.RawData ∧ o'.Typ = partyObj.Typ :=
  ⟨rfl, store_put_get_roundtrip testHash testDec ⟨[]⟩ partyCid [7] partyObj rfl⟩

/-- C3 counterexample: at a concrete graph, resolving the truly empty path
does not return the root Object — it returns the root's decoded tree value
(the cbornode Resolve of an empty path), a different result than the
sentinel path produces. -/
theorem graph_get_empty_path_counterexample :
    Graph.Get testHash testDec 1 (NewGraph testStore rootObj) [] =
      .ok (.val (.v rootTree)) ∧
    ((.ok (.val (.v rootTree)) : Except Err GraphVal) ≠
      .ok (.obj (Graph.Root (NewGraph testStore rootObj)))) :=
  ⟨rfl, fun h => GraphVal.noConfusion (Except.ok.inj h)⟩

/-- C3 amended: resolving the single empty-string sentinel path returns the
root Object itself, while resolving the truly empty path returns the root's
decoded tree value rather than the Object. -/
theorem graph_get_empty_and_sentinel (H : HashFn) (dec : DecodeFn)
    (fuel : Nat) (g : Graph) :
    Graph.Get H dec (fuel + 1) g [""] = .ok (.obj g.root) ∧
    Graph.Get H dec (fuel + 1) g [] = .ok (.val (.v g.root.node)) := by
  constructor
  · simp [Graph.Get]
  · simp [Graph.Get, Node.Resolve]

/-- C5 counterexample: the single empty-string sentinel path is a non-empty
path whose first segment "" is not a field of the concrete root, yet
Graph.Get succeeds with the root Object instead of failing with
PathNotFound; and for a root whose decoded tree is not a map (so no path
segment is a field of it) the failure is the cbornode no-links error, which
the PathNotFound predicate rejects. -/
theorem graph_get_pathNotFound_counterexample :
    List.lookup "" [("A", Val.link childCid)] = none ∧
    Graph.Get testHash testDec 1 (NewGraph testStore rootObj) [""] =
      .ok (.obj rootObj) ∧
    Graph.Get testHash testDec 1 (NewGraph testStore strObj) ["a"] =
      .error .noLinks ∧
    IsPathNotFound .noLinks = false :=
  ⟨rfl, rfl, rfl, rfl⟩

/-- C5 amended: for a root Object whose decoded tree is a map and a
non-empty path other than the empty-string sentinel whose first segment is
not a key of that map, Graph.Get fails with PathNotFound carrying the path,
and the IsPathNotFound predicate holds of that error and of no other error
kind the resolver can produce. -/
theorem graph_get_pathNotFound (H : HashFn) (dec : DecodeFn) (fuel : Nat)
    (g : Graph) (kvs : List (String × Val)) (seg : String) (rest : List String)
    (hroot : g.root.node = Val.map kvs)
    (hsent : seg :: rest ≠ [""])
    (hmiss : kvs.lookup seg = none) :
    Graph.Get H dec (fuel + 1) g (seg :: rest) =
      .error (.pathNotFound (seg :: rest)) ∧
    IsPathNotFound (.pathNotFound (seg :: rest)) = true ∧
    ∀ e : Err, IsPathNotFound e = true → ∃ q, e = .pathNotFound q := by
  refine ⟨?_, rfl, ?_⟩
  · simp [Graph.Get, hsent, hroot, Node.Resolve, hmiss, Err.isNoSuchLink]
  · intro e he
    cases e <;> simp [IsPathNotFound] at he
    exact ⟨_, rfl⟩

/-- Evaluation of C5 (amended) at a point: the missing field "missing" of
the concrete root yields PathNotFound, and the predicate characterizes it. -/
theorem graph_get_pathNotFound_witness :
    Graph.Get testHash testDec 1 (NewGraph testStore rootObj) ["missing"] =
      .error (.pathNotFound ["missing"]) ∧
    IsPathNotFound (.pathNotFound ["missing"]) = true ∧
    ∀ e : Err, IsPathNotFound e = true → ∃ q, e = .pathNotFound q :=
  graph_get_pathNotFound testHash testDec 0 (NewGraph testStore rootObj)
    [("A", Val.link childCid)] "missing" [] rfl (by decide) rfl

/-- C4: for a root whose field A is a link to a stored child object whose
field B holds the scalar "x", Graph.Get on the path [A, B] returns "x",
and the fetch-counting variant certifies that exactly one additional Object
was fetched from the Store. -/
theorem graph_get_crosslink (H : HashFn) (dec : DecodeFn) (fuel : Nat)
    (store : Store) (root child : Object) (c : Cid)
    (rkvs ckvs : List (String × Val))
    (hroot : root.node = Val.map rkvs)
    (hA : rkvs.lookup "A" = some (Val.link c))
    (hfetch : Store.Get H dec store c = .ok child)
    (hchild : child.node = Val.map ckvs)
    (hB : ckvs.lookup "B" = some (Val.str "x")) :
    Graph.Get H dec (fuel + 1 + 1) (NewGraph store root) ["A", "B"] =
      .ok (.val (.v (.str "x"))) ∧
    Graph.GetCount H dec (fuel + 1 + 1) (NewGraph store root) ["A", "B"] =
      .ok (.val (.v (.str "x")), 1) := by
  constructor <;>
    simp [Graph.Get, Graph.GetCount, Node.Resolve, NewGraph,
      hroot, hA, hfetch, hchild, hB]

/-- Evaluation of C4 at a point: the concrete two-object graph resolves
[A, B] to "x" with exactly one store fetch. -/
theorem graph_get_crosslink_witness :
    Graph.Get testHash testDec 2 (NewGraph testStore rootObj) ["A", "B"] =
      .ok (.val (.v (.str "x"))) ∧
    Graph.GetCount testHash testDec 2 (NewGraph testStore rootObj) ["A", "B"] =
      .ok (.val (.v (.str "x")), 1) :=
  graph_get_crosslink testHash testDec 0 testStore rootObj childObj childCid
    [("A", Val.link childCid)] [("B", Val.str "x")] rfl rfl rfl rfl rfl

/-- C10: a non-empty, non-sentinel path that resolves inside the root's
decoded tree to a terminal CID value (no remaining segments) makes
Graph.Get return that CID value itself — unwrapped, as the cbornode Resolve
returns a terminal CID raw — and the fetch-counting variant certifies that
no Object was fetched from the Store. -/
theorem graph_get_terminal_link (H : HashFn) (dec : DecodeFn) (fuel : Nat)
    (g : Graph) (p : List String) (c : Cid)
    (_hne : p ≠ [])
    (hsent : p ≠ [""])
    (hres : Node.Resolve g.root.node p = .ok (.v (.link c), [])) :
    Graph.Get H dec (fuel + 1) g p = .ok (.val (.v (.link c))) ∧
    Graph.GetCount H dec (fuel + 1) g p = .ok (.val (.v (.link c)), 0) := by
  constructor <;> simp [Graph.Get, Graph.GetCount, hsent, hres]

/-- Evaluation of C10 at a point: the path [A] of the concrete root ends at
the link field itself, so Get returns the child's CID without any fetch. -/
theorem graph_get_terminal_link_witness :
    Graph.Get testHash testDec 1 (NewGraph testStore rootObj) ["A"] =
      .ok (.val (.v (.link childCid))) ∧
    Graph.GetCount testHash testDec 1 (NewGraph testStore rootObj) ["A"] =
      .ok (.val (.v (.link childCid)), 0) :=
  graph_get_terminal_link testHash testDec 0 (NewGraph testStore rootObj)
    ["A"] childCid (by decide) (by decide) rfl

/-- C8: in the continuation of Graph.Get that handles the pair returned by
the cbornode Resolve method (src/unnamed/part_002 lines 121-128), a value
resolved with path segments still remaining that is not a format.Link makes
resolution fail with the ExpectedLink error carrying the value's dynamic
type name, rather than return a value. -/
theorem graph_getAfterResolve_expectedLink (H : HashFn) (dec : DecodeFn)
    (fuel : Nat) (g : Graph) (v : RVal) (rest : List String)
    (hrest : rest ≠ [])
    (hnl : ∀ c, v ≠ RVal.fmtLink c) :
    Graph.getAfterResolve H dec fuel g v rest =
      .error (.expectedLink (RVal.goTypeName v)) := by
  cases v with
  | fmtLink c => exact absurd rfl (hnl c)
  | v w => simp [Graph.getAfterResolve, hrest]

/-- Evaluation of C8 at a point: a plain string value with a segment still
to resolve produces the ExpectedLink error naming the Go type string. -/
theorem graph_getAfterResolve_expectedLink_witness :
    Graph.getAfterResolve testHash testDec 0 (NewGraph testStore rootObj)
      (.v (.str "x")) ["a"] = .error (.expectedLink "string") :=
  graph_getAfterResolve_expectedLink testHash testDec 0
    (NewGraph testStore rootObj) (.v (.str "x")) ["a"]
    (by decide) (fun _ h => nomatch h)

end GoMeta
